import Mathlib

/-!
Verification of the checkout saga and its collaborators from
D780-Task2.py (Cart, Inventory, Payment, Orchestrator services).

The embedding models:
- JSON scalar values (the payloads are flat key-value maps of scalars);
- the Python builtins the handlers use (int(), float(), truthiness,
  str(), str.title(), str.replace) restricted to those scalars;
- the inventory stock map as a total function from item names to
  integers (dict lookup with default 0);
- each HTTP handler as a pure function from its state and request to a
  response and new state; a handler that raises an uncaught exception
  (so no HTTP response is ever sent) is modelled as returning none;
- the orchestrator checkout as a function parametrized by the
  reachability of each collaborator call and by the payment gateway
  response; its result carries the response, the final stock map, and
  the ordered trace of attempted collaborator calls.

Numeric note: Python floats are modelled as exact rationals; float
rounding and the exotic float syntaxes (exponents, inf, nan, leading
whitespace, underscores) are outside the scope of every claim treated
here and are not modelled.
-/

/-- A JSON scalar value as Python json.loads produces it: None, bool,
int, float (modelled as an exact rational) or str. -/
inductive JVal where
  | null : JVal
  | jbool : Bool → JVal
  | jint : Int → JVal
  | jnum : Rat → JVal
  | jstr : String → JVal
deriving DecidableEq

/-- Digit-string value, most significant first (helper for the Python
numeric parsers). -/
def digitsVal (cs : List Char) : Nat :=
  cs.foldl (fun n c => 10 * n + (c.toNat - 48)) 0

/-- All characters are ASCII digits. -/
def isDigits (cs : List Char) : Bool :=
  cs.all Char.isDigit

/-- Split a character list on every occurrence of a separator, like the
Python str.split with a one-character separator (always returns at
least one, possibly empty, piece). -/
def splitOnChar (sep : Char) : List Char → List (List Char)
  | [] => [[]]
  | c :: cs =>
    if c = sep then [] :: splitOnChar sep cs
    else
      match splitOnChar sep cs with
      | h :: t => (c :: h) :: t
      | [] => [[c]]

/-- Python int() on a decimal string without sign: digits only. -/
def parseIntDigits (cs : List Char) : Option Int :=
  if !cs.isEmpty && isDigits cs then some ((digitsVal cs : Nat) : Int) else none

/-- Python int() on a string: optional sign followed by digits. -/
def parseIntStr (s : String) : Option Int :=
  match s.toList with
  | '-' :: rest => (parseIntDigits rest).map (fun n => -n)
  | '+' :: rest => parseIntDigits rest
  | cs => parseIntDigits cs

/-- Python float() on an unsigned decimal string: digits with an
optional single decimal point, at least one digit overall. -/
def parseFloatDigits (cs : List Char) : Option Rat :=
  match splitOnChar '.' cs with
  | [a] =>
    if !a.isEmpty && isDigits a then some ((digitsVal a : Nat) : Rat) else none
  | [a, b] =>
    if (!a.isEmpty || !b.isEmpty) && isDigits a && isDigits b then
      some (mkRat ((digitsVal a : Nat) * 10 ^ b.length + (digitsVal b : Nat)) (10 ^ b.length))
    else none
  | _ => none

/-- Python float() on a string: optional sign then unsigned decimal. -/
def parseFloatStr (s : String) : Option Rat :=
  match s.toList with
  | '-' :: rest => (parseFloatDigits rest).map (fun q => -q)
  | '+' :: rest => parseFloatDigits rest
  | cs => parseFloatDigits cs

/-- Truncation toward zero, the behavior of Python int() on a float. -/
def ratTrunc (q : Rat) : Int :=
  if 0 ≤ q then q.floor else -((-q).floor)

/-- Python int(v) on a JSON scalar; none models a raised exception. -/
def pyInt : JVal → Option Int
  | JVal.null => none
  | JVal.jbool b => some (if b then 1 else 0)
  | JVal.jint n => some n
  | JVal.jnum q => some (ratTrunc q)
  | JVal.jstr s => parseIntStr s

/-- Python float(v) on a JSON scalar; none models a raised exception. -/
def pyFloat : JVal → Option Rat
  | JVal.null => none
  | JVal.jbool b => some (if b then 1 else 0)
  | JVal.jint n => some (n : Rat)
  | JVal.jnum q => some q
  | JVal.jstr s => parseFloatStr s

/-- Python truthiness of a JSON scalar. -/
def pyTruthy : JVal → Bool
  | JVal.null => false
  | JVal.jbool b => b
  | JVal.jint n => n != 0
  | JVal.jnum q => q != 0
  | JVal.jstr s => !s.isEmpty

/-- Decimal digits of a rational in the half-open unit interval,
produced by repeated multiplication by ten; fuel bounds the output as
Python repr of a float is finite. -/
def fracDigitsChars : Rat → Nat → List Char
  | _, 0 => []
  | q, n + 1 =>
    let d := (q * 10).floor
    let rest := q * 10 - (d : Rat)
    Char.ofNat (48 + d.toNat) :: (if rest = 0 then [] else fracDigitsChars rest n)

/-- Python str() of a nonnegative float value (terminating decimals). -/
def floatReprNN (q : Rat) : String :=
  let ip := q.floor
  let frac := q - (ip : Rat)
  toString ip ++ "." ++ (if frac = 0 then "0" else String.mk (fracDigitsChars frac 17))

/-- Python str() of a float value, modelled for terminating decimals. -/
def floatRepr (q : Rat) : String :=
  if q < 0 then "-" ++ floatReprNN (-q) else floatReprNN q

/-- Python str(v) on a JSON scalar. -/
def pyStr : JVal → String
  | JVal.null => "None"
  | JVal.jbool b => if b then "True" else "False"
  | JVal.jint n => toString n
  | JVal.jnum q => floatRepr q
  | JVal.jstr s => s

/-- Python str.title() over ASCII: a letter is uppercased when the
previous character is not a letter, lowercased otherwise. -/
def pyTitleAux : List Char → Bool → List Char
  | [], _ => []
  | c :: cs, prevCased =>
    (if c.isAlpha then (if prevCased then c.toLower else c.toUpper) else c)
      :: pyTitleAux cs c.isAlpha

/-- Python str.title() of a string. -/
def pyTitle (s : String) : String :=
  String.mk (pyTitleAux s.toList false)

/-- Python str.replace for the one-character pattern and replacement
the source uses (underscore to space): a character map. -/
def pyReplaceChar (pat repl : Char) (s : String) : String :=
  String.mk (s.toList.map (fun c => if c = pat then repl else c))

/-- Source _amount_str: try float(a); if integral, str(int(f)); if not
integral, str(f); if float() raised, str(a). -/
def amount_str (a : JVal) : String :=
  match pyFloat a with
  | some f => if f.den = 1 then toString f.num else floatRepr f
  | none => pyStr a

/-- Source _pretty_method: non-strings render as Unknown; a string has
underscores replaced by spaces and is then title-cased. -/
def pretty_method (m : JVal) : String :=
  match m with
  | JVal.jstr s => pyTitle (pyReplaceChar '_' ' ' s)
  | _ => "Unknown"

/-- Strip every leading and trailing occurrence of a character, like
Python str.strip with a one-character argument. -/
def stripChar (c : Char) (l : List Char) : List Char :=
  ((l.dropWhile (fun x => x = c)).reverse.dropWhile (fun x => x = c)).reverse

/-- The handlers parse self.path with urlparse(path).path (dropping
query and fragment), strip the slashes at both ends, and split on the
remaining slashes. -/
def pyUrlPathParts (path : String) : List String :=
  let cs := path.toList.takeWhile (fun c => c != '?' && c != '#')
  (splitOnChar '/' (stripChar '/' cs)).map (fun l => String.mk l)

/-! ## Inventory service (src lines 84 to 129) -/

/-- The inventory stock map: dict lookup with default 0 becomes a total
function from item names to integers. -/
def Stock : Type := String → Int

/-- Response bodies of the inventory GET handler. -/
inductive InvGetBody where
  | health : InvGetBody
  | itemStock : String → Int → InvGetBody
  | notFoundG : InvGetBody
deriving DecidableEq

/-- Response bodies of the inventory PUT handler. -/
inductive InvPutBody where
  | negQuantity : InvPutBody
  | updated : String → InvPutBody
  | notFoundU : InvPutBody
deriving DecidableEq

/-- Response bodies of the inventory POST handler. -/
inductive InvPostBody where
  | badQuantity : InvPostBody
  | insufficientStock : Int → InvPostBody
  | reserved : Int → InvPostBody
  | released : Int → InvPostBody
  | notFoundP : InvPostBody
deriving DecidableEq

/-- InventoryHandler.do_GET: health probe, or the stock of one item
(unknown items report 0), or 404. -/
def InventoryHandler_do_GET (stock : Stock) (path : String) : Nat × InvGetBody :=
  if path = "/health" then (200, InvGetBody.health)
  else
    match pyUrlPathParts path with
    | [p0, item] =>
      if p0 = "inventory" then (200, InvGetBody.itemStock item (stock item))
      else (404, InvGetBody.notFoundG)
    | _ => (404, InvGetBody.notFoundG)

/-- The routed body of InventoryHandler.do_PUT: parse the quantity with
int() (raising models as none), reject negatives, otherwise set the
absolute stock of the item. -/
def inventoryPutAct (stock : Stock) (item : String) (quantity : Option JVal) :
    Option (Nat × InvPutBody) × Stock :=
  match pyInt (quantity.getD (JVal.jint 0)) with
  | none => (none, stock)
  | some qty =>
    if qty < 0 then (some (400, InvPutBody.negQuantity), stock)
    else (some (200, InvPutBody.updated item), fun s => if s = item then qty else stock s)

/-- InventoryHandler.do_PUT: route, then act. -/
def InventoryHandler_do_PUT (stock : Stock) (path : String) (quantity : Option JVal) :
    Option (Nat × InvPutBody) × Stock :=
  match pyUrlPathParts path with
  | [p0, item] =>
    if p0 = "inventory" then inventoryPutAct stock item quantity
    else (some (404, InvPutBody.notFoundU), stock)
  | _ => (some (404, InvPutBody.notFoundU), stock)

/-- The routed body of InventoryHandler.do_POST: parse the quantity
with int(), reject non-positives, then dispatch on the action segment:
reserve is a check-and-decrement rejecting with 409 and the available
count when short, release is an unconditional increment, anything else
is 404. -/
def inventoryAct (stock : Stock) (item action : String) (quantity : Option JVal) :
    Option (Nat × InvPostBody) × Stock :=
  match pyInt (quantity.getD (JVal.jint 0)) with
  | none => (none, stock)
  | some qty =>
    if qty ≤ 0 then (some (400, InvPostBody.badQuantity), stock)
    else
      let current := stock item
      if action = "reserve" then
        if current < qty then (some (409, InvPostBody.insufficientStock current), stock)
        else (some (200, InvPostBody.reserved (current - qty)),
              fun s => if s = item then current - qty else stock s)
      else if action = "release" then
        (some (200, InvPostBody.released (current + qty)),
         fun s => if s = item then current + qty else stock s)
      else (some (404, InvPostBody.notFoundP), stock)

/-- InventoryHandler.do_POST: route, then act. -/
def InventoryHandler_do_POST (stock : Stock) (path : String) (quantity : Option JVal) :
    Option (Nat × InvPostBody) × Stock :=
  match pyUrlPathParts path with
  | [p0, item, action] =>
    if p0 = "inventory" then inventoryAct stock item action quantity
    else (some (404, InvPostBody.notFoundP), stock)
  | _ => (some (404, InvPostBody.notFoundP), stock)

/-! ## Payment service (src lines 135 to 154) -/

/-- Response bodies of the payment POST handler. -/
inductive PayBody where
  | notNumeric : PayBody
  | notPositive : PayBody
  | message : String → PayBody
  | notFoundPay : PayBody
deriving DecidableEq

/-- The /pay body of PaymentHandler.do_POST: float() the amount (400 on
a raised exception), reject non-positive amounts, otherwise succeed
with a confirmation built from the original amount value and the
pretty-printed method. -/
def payAct (method amount : JVal) : Nat × PayBody :=
  match pyFloat amount with
  | none => (400, PayBody.notNumeric)
  | some amt =>
    if amt ≤ 0 then (400, PayBody.notPositive)
    else (200, PayBody.message
      ("Processed " ++ amount_str amount ++ " via " ++ pretty_method method ++ "."))

/-- PaymentHandler.do_POST: only the exact /pay path is served. -/
def PaymentHandler_do_POST (path : String) (method amount : Option JVal) : Nat × PayBody :=
  if path = "/pay" then payAct (method.getD JVal.null) (amount.getD JVal.null)
  else (404, PayBody.notFoundPay)

/-! ## Orchestrator service (src lines 160 to 241) -/

/-- A collaborator response body as seen by the orchestrator through
_http_get and _http_post: either a parsed JSON body from one of the
services, or the locally produced unreachable body on URLError. -/
inductive RBody where
  | unreach : RBody
  | invGet : InvGetBody → RBody
  | invPost : InvPostBody → RBody
  | pay : PayBody → RBody
deriving DecidableEq

/-- One attempted outbound collaborator call of a checkout, in order. -/
inductive Call where
  | getStock : String → Call
  | reserve : String → Int → Call
  | charge : JVal → Rat → Call
  | release : String → Int → Call
deriving DecidableEq

/-- The environment of one checkout call: whether each outbound
inventory call can reach the inventory service (a false models the
URLError branch of _http_get and _http_post, including timeouts), and
the payment gateway reply to POST /pay (none models an unreachable
gateway). When an inventory call is reachable its reply comes from the
embedded inventory handler acting on the current stock. -/
structure Env where
  invGetUp : Bool
  invReserveUp : Bool
  invReleaseUp : Bool
  payResp : Option (Nat × PayBody)
deriving DecidableEq

/-- Response bodies of the orchestrator /checkout handler. -/
inductive CheckoutBody where
  | errItemQty : CheckoutBody
  | errAmountNumeric : CheckoutBody
  | errAmountPositive : CheckoutBody
  | errInvUnreachable : CheckoutBody
  | errInsufficient : Int → CheckoutBody
  | errReserveFailed : RBody → CheckoutBody
  | errPaymentFailed : RBody → CheckoutBody
  | success : String → CheckoutBody
  | errNotFound : CheckoutBody
deriving DecidableEq

/-- Result of one checkout call: the HTTP response (none models an
uncaught exception, so no response is sent), the final inventory stock
map, and the ordered trace of attempted collaborator calls. -/
structure COutcome where
  resp : Option (Nat × CheckoutBody)
  stock : Stock
  calls : List Call

/-- The orchestrator reads inv.get with key stock and default 0 from
the body of the inventory GET reply. -/
def rbodyStock : RBody → Int
  | RBody.invGet (InvGetBody.itemStock _ n) => n
  | _ => 0

/-- The payment gateway reply as the orchestrator records it in the
details field of a payment failure. -/
def payDetail (env : Env) : RBody :=
  match env.payResp with
  | some (_, b) => RBody.pay b
  | none => RBody.unreach

/-- The /checkout body of OrchestratorHandler.do_POST (src lines 200
to 239). Parse order follows the source: int() on the quantity first
(its raised exception, modelled by none, aborts with no response),
then the item/quantity validation, then float() on the amount. Each
collaborator call is recorded in the trace; an inventory call made
while the service is reachable is answered by the embedded inventory
handler on the current stock. An inventory handler that raises (none)
sends no reply, which the orchestrator client code observes as a 503
unreachable result, the URLError branch. -/
def checkout (env : Env) (stock : Stock) (req_item req_quantity req_amount req_method : Option JVal) :
    COutcome :=
  let itemV := req_item.getD JVal.null
  let amountV := req_amount.getD JVal.null
  let methodV := req_method.getD JVal.null
  match pyInt (req_quantity.getD (JVal.jint 0)) with
  | none => ⟨none, stock, []⟩
  | some qty =>
    if pyTruthy itemV = false ∨ qty ≤ 0 then
      ⟨some (400, CheckoutBody.errItemQty), stock, []⟩
    else
      match pyFloat amountV with
      | none => ⟨some (400, CheckoutBody.errAmountNumeric), stock, []⟩
      | some amt =>
        if amt ≤ 0 then ⟨some (400, CheckoutBody.errAmountPositive), stock, []⟩
        else
          let itemS := pyStr itemV
          let r1 : Nat × RBody :=
            if env.invGetUp then
              let g := InventoryHandler_do_GET stock ("/inventory/" ++ itemS)
              (g.1, RBody.invGet g.2)
            else (503, RBody.unreach)
          let calls1 := [Call.getStock itemS]
          if r1.1 ≠ 200 then ⟨some (503, CheckoutBody.errInvUnreachable), stock, calls1⟩
          else if rbodyStock r1.2 < qty then
            ⟨some (409, CheckoutBody.errInsufficient (rbodyStock r1.2)), stock, calls1⟩
          else
            let r2 : Nat × RBody × Stock :=
              if env.invReserveUp then
                match InventoryHandler_do_POST stock ("/inventory/" ++ itemS ++ "/reserve")
                    (some (JVal.jint qty)) with
                | (some (c, b), st2) => (c, RBody.invPost b, st2)
                | (none, st2) => (503, RBody.unreach, st2)
              else (503, RBody.unreach, stock)
            let calls2 := calls1 ++ [Call.reserve itemS qty]
            if r2.1 ≠ 200 then
              ⟨some (409, CheckoutBody.errReserveFailed r2.2.1), r2.2.2, calls2⟩
            else
              let p : Nat × RBody :=
                match env.payResp with
                | some (c, b) => (c, RBody.pay b)
                | none => (503, RBody.unreach)
              let calls3 := calls2 ++ [Call.charge methodV amt]
              if p.1 ≠ 200 then
                let st4 : Stock :=
                  if env.invReleaseUp then
                    (InventoryHandler_do_POST r2.2.2 ("/inventory/" ++ itemS ++ "/release")
                      (some (JVal.jint qty))).2
                  else r2.2.2
                ⟨some (402, CheckoutBody.errPaymentFailed p.2), st4,
                 calls3 ++ [Call.release itemS qty]⟩
              else
                ⟨some (200, CheckoutBody.success
                    ("Processed " ++ amount_str amountV ++ " via " ++ pretty_method methodV ++ ".")),
                 r2.2.2, calls3⟩

/-- OrchestratorHandler.do_POST: only the exact /checkout path is
served; anything else is 404 with no calls and no state change. -/
def OrchestratorHandler_do_POST (env : Env) (stock : Stock) (path : String)
    (req_item req_quantity req_amount req_method : Option JVal) : Option (Nat × CheckoutBody) × Stock :=
  if path = "/checkout" then
    let o := checkout env stock req_item req_quantity req_amount req_method
    (o.resp, o.stock)
  else (some (404, CheckoutBody.errNotFound), stock)

/-! ## Routing lemmas

The orchestrator builds inventory URLs from the item name; these
lemmas compute the path parsing of the inventory handlers for item
names that are plain path segments. -/

/-- A character that survives both the query stripping and the slash
splitting of the path parser. -/
def goodChar (c : Char) : Bool :=
  c != '/' && c != '?' && c != '#'

/-- A nonempty item name made of plain characters: it occupies exactly
one path segment of an inventory URL. -/
def plainSeg (s : String) : Bool :=
  !s.toList.isEmpty && s.toList.all goodChar

theorem takeWhile_all_eq {p : Char → Bool} (l : List Char) (h : ∀ x ∈ l, p x = true) :
    l.takeWhile p = l :=
  List.takeWhile_eq_self_iff.mpr h

theorem splitOnChar_single (sep : Char) (l : List Char)
    (h : ∀ x ∈ l, x ≠ sep) : splitOnChar sep l = [l] := by
  induction l with
  | nil => rfl
  | cons c t ih =>
    have hc : c ≠ sep := h c (List.mem_cons_self c t)
    have ht : ∀ x ∈ t, x ≠ sep := fun x hx => h x (List.mem_cons_of_mem c hx)
    simp only [splitOnChar, if_neg hc, ih ht]

theorem splitOnChar_append (sep : Char) (pre : List Char)
    (hpre : ∀ x ∈ pre, x ≠ sep) (rest : List Char) (hh : List Char) (tt : List (List Char))
    (hr : splitOnChar sep rest = hh :: tt) :
    splitOnChar sep (pre ++ rest) = (pre ++ hh) :: tt := by
  induction pre with
  | nil => simpa using hr
  | cons c p ih =>
    have hc : c ≠ sep := hpre c (List.mem_cons_self c p)
    have hp : ∀ x ∈ p, x ≠ sep := fun x hx => hpre x (List.mem_cons_of_mem c hx)
    simp only [List.cons_append, splitOnChar, if_neg hc, List.append_eq]
    rw [ih hp]

theorem stripChar_cons_drop (ch : Char) (l : List Char) :
    stripChar ch (ch :: l) = stripChar ch l := by
  unfold stripChar
  rw [List.dropWhile_cons]
  simp

theorem stripChar_of_ne_ends (ch m y : Char) (mid : List Char)
    (hm : m ≠ ch) (hy : y ≠ ch) :
    stripChar ch (m :: (mid ++ [y])) = m :: (mid ++ [y]) := by
  unfold stripChar
  rw [List.dropWhile_cons, if_neg (by simp [hm])]
  have h2 : (m :: (mid ++ [y])).reverse = y :: (mid.reverse ++ [m]) := by simp
  rw [h2, List.dropWhile_cons, if_neg (by simp [hy])]
  rw [← h2, List.reverse_reverse]

theorem plainSeg_ne_nil {s : String} (hs : plainSeg s = true) : s.toList ≠ [] := by
  intro h
  have hf : plainSeg s = false := by
    unfold plainSeg
    rw [show s.toList = [] from h]
    rfl
  rw [hs] at hf
  exact absurd hf (by decide)

theorem plainSeg_all {s : String} (hs : plainSeg s = true) :
    ∀ x ∈ s.toList, goodChar x = true := by
  have h2 : s.toList.all goodChar = true := by
    cases hall2 : s.toList.all goodChar
    · exfalso
      unfold plainSeg at hs
      rw [hall2, Bool.and_false] at hs
      exact absurd hs (by decide)
    · rfl
  exact List.all_eq_true.mp h2

theorem goodChar_ne {x : Char} (h : goodChar x = true) :
    x ≠ '/' ∧ x ≠ '?' ∧ x ≠ '#' := by
  simp [goodChar] at h
  exact ⟨h.1.1, h.1.2, h.2⟩

theorem pyUrlPathParts_item (s : String) (hs : plainSeg s = true) :
    pyUrlPathParts ("/inventory/" ++ s) = ["inventory", s] := by
  have hne := plainSeg_ne_nil hs
  have hall := plainSeg_all hs
  obtain ⟨L', y, hL⟩ : ∃ L' y, s.toList = L' ++ [y] :=
    ⟨s.toList.dropLast, s.toList.getLast hne, (List.dropLast_append_getLast hne).symm⟩
  have hy : y ∈ s.toList := by rw [hL]; simp
  have hyg := goodChar_ne (hall y hy)
  simp only [pyUrlPathParts]
  have h1 : ("/inventory/" ++ s).toList.takeWhile (fun c => c != '?' && c != '#')
      = "/inventory/".toList ++ s.toList := by
    apply takeWhile_all_eq
    intro x hx
    rcases List.mem_append.mp hx with h | h
    · fin_cases h <;> decide
    · have := goodChar_ne (hall x h)
      simp [this.2.1, this.2.2]
  rw [h1]
  have e2 : "/inventory/".toList ++ s.toList
      = '/' :: ('i' :: (("nventory/".toList ++ L') ++ [y])) := by
    rw [hL]; rfl
  have h2 : stripChar '/' ("/inventory/".toList ++ s.toList)
      = 'i' :: (("nventory/".toList ++ L') ++ [y]) := by
    rw [e2, stripChar_cons_drop, stripChar_of_ne_ends '/' 'i' y _ (by decide) hyg.1]
  rw [h2]
  have e3 : 'i' :: (("nventory/".toList ++ L') ++ [y])
      = "inventory".toList ++ ('/' :: (L' ++ [y])) := by rfl
  rw [e3]
  have hLslash : ∀ x ∈ L' ++ [y], x ≠ '/' := by
    intro x hx
    have hxs : x ∈ s.toList := by rw [hL]; exact hx
    exact (goodChar_ne (hall x hxs)).1
  have hr : splitOnChar '/' ('/' :: (L' ++ [y])) = [] :: [L' ++ [y]] := by
    simp only [splitOnChar, if_pos rfl]
    rw [splitOnChar_single _ _ hLslash]
    simp
  rw [splitOnChar_append '/' "inventory".toList (by intro x hx; fin_cases hx <;> decide)
      _ _ _ hr]
  simp only [List.append_nil, List.map]
  rw [← hL]
  rfl

theorem pyUrlPathParts_item_act (s a : String) (hs : plainSeg s = true) (ha : plainSeg a = true) :
    pyUrlPathParts ("/inventory/" ++ s ++ ("/" ++ a)) = ["inventory", s, a] := by
  have hneA := plainSeg_ne_nil ha
  have hallS := plainSeg_all hs
  have hallA := plainSeg_all ha
  obtain ⟨A', z, hA⟩ : ∃ A' z, a.toList = A' ++ [z] :=
    ⟨a.toList.dropLast, a.toList.getLast hneA, (List.dropLast_append_getLast hneA).symm⟩
  have hz : z ∈ a.toList := by rw [hA]; simp
  have hzg := goodChar_ne (hallA z hz)
  simp only [pyUrlPathParts]
  have h1 : ("/inventory/" ++ s ++ ("/" ++ a)).toList.takeWhile (fun c => c != '?' && c != '#')
      = ("/inventory/".toList ++ s.toList) ++ ('/' :: a.toList) := by
    apply takeWhile_all_eq
    intro x hx
    rcases List.mem_append.mp hx with h | h
    · rcases List.mem_append.mp h with h | h
      · fin_cases h <;> decide
      · have := goodChar_ne (hallS x h)
        simp [this.2.1, this.2.2]
    · rcases List.mem_cons.mp h with h | h
      · subst h; decide
      · have := goodChar_ne (hallA x h)
        simp [this.2.1, this.2.2]
  rw [h1]
  have e2 : ("/inventory/".toList ++ s.toList) ++ ('/' :: a.toList)
      = '/' :: ('i' :: (((("nventory/".toList ++ s.toList) ++ ('/' :: A'))) ++ [z])) := by
    rw [hA, ← List.cons_append, ← List.append_assoc]
    rfl
  have h2 : stripChar '/' (("/inventory/".toList ++ s.toList) ++ ('/' :: a.toList))
      = 'i' :: (((("nventory/".toList ++ s.toList) ++ ('/' :: A'))) ++ [z]) := by
    rw [e2, stripChar_cons_drop, stripChar_of_ne_ends '/' 'i' z _ (by decide) hzg.1]
  rw [h2]
  have e3 : 'i' :: (((("nventory/".toList ++ s.toList) ++ ('/' :: A'))) ++ [z])
      = "inventory".toList ++ ('/' :: (s.toList ++ ('/' :: a.toList))) := by
    rw [List.append_assoc, List.cons_append, ← hA]
    rfl
  rw [e3]
  have hSslash : ∀ x ∈ s.toList, x ≠ '/' := fun x hx => (goodChar_ne (hallS x hx)).1
  have hAslash : ∀ x ∈ a.toList, x ≠ '/' := fun x hx => (goodChar_ne (hallA x hx)).1
  have hrA : splitOnChar '/' ('/' :: a.toList) = [] :: [a.toList] := by
    simp only [splitOnChar, if_pos rfl]
    rw [splitOnChar_single _ _ hAslash]
    simp
  have hrS : splitOnChar '/' (s.toList ++ ('/' :: a.toList)) = [s.toList, a.toList] := by
    rw [splitOnChar_append '/' s.toList hSslash _ _ _ hrA]
    simp
  have hrR : splitOnChar '/' ('/' :: (s.toList ++ ('/' :: a.toList)))
      = [] :: [s.toList, a.toList] := by
    simp only [splitOnChar, if_pos rfl]
    rw [hrS]
    simp
  rw [splitOnChar_append '/' "inventory".toList (by intro x hx; fin_cases hx <;> decide)
      _ _ _ hrR]
  simp only [List.append_nil, List.map]
  rfl

/-- GET of a plain item routes to the stock lookup branch. -/
theorem invGet_plain (stock : Stock) (s : String) (hs : plainSeg s = true) :
    InventoryHandler_do_GET stock ("/inventory/" ++ s)
      = (200, InvGetBody.itemStock s (stock s)) := by
  unfold InventoryHandler_do_GET
  have hlen : ("/inventory/" ++ s) ≠ "/health" := by
    intro h
    have : ("/inventory/" ++ s).toList.length = "/health".toList.length := by rw [h]
    have hx : ("/inventory/" ++ s).toList = "/inventory/".toList ++ s.toList := rfl
    rw [hx, List.length_append] at this
    simp at this
    omega
  rw [if_neg hlen, pyUrlPathParts_item s hs]
  simp

/-- POST of a plain item and plain action routes to the act branch. -/
theorem invPost_plain (stock : Stock) (s a : String) (q : Option JVal)
    (hs : plainSeg s = true) (ha : plainSeg a = true) :
    InventoryHandler_do_POST stock ("/inventory/" ++ s ++ ("/" ++ a)) q
      = inventoryAct stock s a q := by
  unfold InventoryHandler_do_POST
  rw [pyUrlPathParts_item_act s a hs ha]
  simp

/-! ## Claim theorems: inventory and payment services -/

/-- C7: for every Reserve(item, qty) call with qty > 0: if current
stock is below qty the handler answers 409 with the available count
and leaves the stock unchanged; otherwise it decrements the item by
exactly qty, answers 200 with remaining = old stock minus qty, and
touches no other item. The embedded handler is one atomic function of
the stock state, so the check and the decrement are one step. -/
theorem reserve_check_and_decrement (stock : Stock) (item : String) (qty : Int)
    (hq : 0 < qty) :
    (stock item < qty →
      inventoryAct stock item "reserve" (some (JVal.jint qty))
        = (some (409, InvPostBody.insufficientStock (stock item)), stock))
    ∧ (qty ≤ stock item →
      (inventoryAct stock item "reserve" (some (JVal.jint qty))).1
          = some (200, InvPostBody.reserved (stock item - qty))
        ∧ (inventoryAct stock item "reserve" (some (JVal.jint qty))).2 item
            = stock item - qty
        ∧ ∀ j, j ≠ item →
            (inventoryAct stock item "reserve" (some (JVal.jint qty))).2 j = stock j) := by
  unfold inventoryAct
  simp only [Option.getD, pyInt]
  rw [if_neg (not_le.mpr hq)]
  constructor
  · intro hlt
    rw [if_pos trivial, if_pos hlt]
  · intro hge
    rw [if_pos trivial, if_neg (not_lt.mpr hge)]
    refine ⟨rfl, by simp, ?_⟩
    intro j hj
    simp [hj]

/-- Witness for C7 at concrete inputs: both the success branch and the
rejection branch. -/
theorem reserve_check_and_decrement_witness :
    (inventoryAct (fun _ => (5 : Int)) "widget" "reserve" (some (JVal.jint 3))).1
        = some (200, InvPostBody.reserved 2)
    ∧ (inventoryAct (fun _ => (5 : Int)) "widget" "reserve" (some (JVal.jint 3))).2 "widget" = 2
    ∧ (inventoryAct (fun _ => (2 : Int)) "widget" "reserve" (some (JVal.jint 3))).1
        = some (409, InvPostBody.insufficientStock 2)
    ∧ (inventoryAct (fun _ => (2 : Int)) "widget" "reserve" (some (JVal.jint 3))).2 "widget" = 2 := by
  have hok := (reserve_check_and_decrement (fun _ => (5 : Int)) "widget" 3 (by decide)).2
    (by decide)
  have hno := (reserve_check_and_decrement (fun _ => (2 : Int)) "widget" 3 (by decide)).1
    (by decide)
  refine ⟨by rw [hok.1]; decide, by rw [hok.2.1]; decide, ?_, ?_⟩
  · rw [show (inventoryAct (fun _ => (2 : Int)) "widget" "reserve" (some (JVal.jint 3))).1
        = some (409, InvPostBody.insufficientStock ((fun _ => (2 : Int)) "widget"))
      from congrArg Prod.fst hno]
  · rw [show (inventoryAct (fun _ => (2 : Int)) "widget" "reserve" (some (JVal.jint 3))).2
        = (fun _ => (2 : Int)) from congrArg Prod.snd hno]

/-- Is the scalar a JSON string. -/
def isJStr : JVal → Bool
  | JVal.jstr _ => true
  | _ => false

/-- C9: the payment act answers 200 exactly when float() succeeds on
the amount with a strictly positive value, answers 400 otherwise, and
never inspects the method: a non-string (or missing, i.e. null) method
is rendered Unknown in the confirmation whenever the amount is valid. -/
theorem payment_amount_gates (m a : JVal) :
    ((payAct m a).1 = 200 ↔ ∃ q, pyFloat a = some q ∧ 0 < q)
    ∧ ((payAct m a).1 = 200 ∨ (payAct m a).1 = 400)
    ∧ (∀ q, pyFloat a = some q → 0 < q → isJStr m = false →
        payAct m a = (200, PayBody.message
          ("Processed " ++ amount_str a ++ " via Unknown."))) := by
  cases hf : pyFloat a with
  | none =>
    have hp : payAct m a = (400, PayBody.notNumeric) := by
      unfold payAct
      rw [hf]
    refine ⟨by rw [hp]; simp, by rw [hp]; simp, ?_⟩
    intro q hq
    exact absurd hq (by simp [hf])
  | some q =>
    by_cases hle : q ≤ 0
    · have hp : payAct m a = (400, PayBody.notPositive) := by
        unfold payAct
        rw [hf]
        exact if_pos hle
      refine ⟨?_, by rw [hp]; simp, ?_⟩
      · rw [hp]
        simp only [hf]
        constructor
        · intro h
          exact absurd h (by decide)
        · rintro ⟨q', hq', hpos⟩
          cases hq'
          exact absurd hpos (not_lt.mpr hle)
      · intro q' hq' hpos _
        cases hq'
        exact absurd hpos (not_lt.mpr hle)
    · have hp : payAct m a = (200, PayBody.message
          ("Processed " ++ amount_str a ++ " via " ++ pretty_method m ++ ".")) := by
        unfold payAct
        rw [hf]
        exact if_neg hle
      refine ⟨by rw [hp]; simp [hf]; exact not_le.mp hle, by rw [hp]; simp, ?_⟩
      intro q' _ _ hm
      rw [hp]
      have hu : pretty_method m = "Unknown" := by
        cases m with
        | jstr s => exact absurd hm (by simp [isJStr])
        | null => rfl
        | jbool b => rfl
        | jint n => rfl
        | jnum r => rfl
      rw [hu]
      simp only [String.append_assoc]
      rfl

/-- Witness for C9: a null method with an integer amount 30 yields the
Unknown confirmation; the positivity gate holds at 30. -/
theorem payment_amount_gates_witness :
    payAct JVal.null (JVal.jint 30)
        = (200, PayBody.message "Processed 30 via Unknown.")
    ∧ (payAct JVal.null (JVal.jint 30)).1 = 200 := by
  have h := (payment_amount_gates JVal.null (JVal.jint 30)).2.2 (30 : Rat) rfl
    (by decide) rfl
  constructor
  · rw [h]
    rfl
  · rw [h]

/-! ## Claim C2: reachable inventory states -/

/-- One mutating request to the inventory service: a PUT (absolute
set) or a POST (reserve, release, or any other action) with an
arbitrary path and an optional quantity value. -/
inductive InvReq where
  | put : String → Option JVal → InvReq
  | post : String → Option JVal → InvReq

/-- The stock state after one request (responses discarded). -/
def invStep (stock : Stock) (r : InvReq) : Stock :=
  match r with
  | InvReq.put p q => (InventoryHandler_do_PUT stock p q).2
  | InvReq.post p q => (InventoryHandler_do_POST stock p q).2

/-- The stock state after a sequence of requests starting from the
empty store (every item at 0). -/
def runInv (ops : List InvReq) : Stock :=
  ops.foldl invStep (fun _ => 0)

theorem inventoryPutAct_nonneg (stock : Stock) (hst : ∀ i, 0 ≤ stock i)
    (item : String) (q : Option JVal) :
    ∀ i, 0 ≤ (inventoryPutAct stock item q).2 i := by
  intro i
  unfold inventoryPutAct
  cases pyInt (q.getD (JVal.jint 0)) with
  | none => exact hst i
  | some qty =>
    dsimp only
    by_cases hq : qty < 0
    · rw [if_pos hq]
      exact hst i
    · rw [if_neg hq]
      dsimp only
      by_cases hii : i = item
      · rw [if_pos hii]
        omega
      · rw [if_neg hii]
        exact hst i

theorem inventoryAct_nonneg (stock : Stock) (hst : ∀ i, 0 ≤ stock i)
    (item action : String) (q : Option JVal) :
    ∀ i, 0 ≤ (inventoryAct stock item action q).2 i := by
  intro i
  unfold inventoryAct
  cases pyInt (q.getD (JVal.jint 0)) with
  | none => exact hst i
  | some qty =>
    dsimp only
    by_cases hq : qty ≤ 0
    · rw [if_pos hq]
      exact hst i
    · rw [if_neg hq]
      by_cases hres : action = "reserve"
      · rw [if_pos hres]
        by_cases hcur : stock item < qty
        · rw [if_pos hcur]
          exact hst i
        · rw [if_neg hcur]
          dsimp only
          by_cases hii : i = item
          · rw [if_pos hii]
            omega
          · rw [if_neg hii]
            exact hst i
      · rw [if_neg hres]
        by_cases hrel : action = "release"
        · rw [if_pos hrel]
          dsimp only
          by_cases hii : i = item
          · rw [if_pos hii]
            have := hst item
            omega
          · rw [if_neg hii]
            exact hst i
        · rw [if_neg hrel]
          exact hst i

theorem invStep_nonneg (stock : Stock) (hst : ∀ i, 0 ≤ stock i) (r : InvReq) :
    ∀ i, 0 ≤ invStep stock r i := by
  intro i
  cases r with
  | put p q =>
    simp only [invStep, InventoryHandler_do_PUT]
    split
    · split
      · exact inventoryPutAct_nonneg stock hst _ q i
      · exact hst i
    · exact hst i
  | post p q =>
    simp only [invStep, InventoryHandler_do_POST]
    split
    · split
      · exact inventoryAct_nonneg stock hst _ _ q i
      · exact hst i
    · exact hst i

theorem foldl_invStep_nonneg (ops : List InvReq) :
    ∀ (stock : Stock), (∀ i, 0 ≤ stock i) → ∀ i, 0 ≤ (ops.foldl invStep stock) i := by
  induction ops with
  | nil => intro stock hst i; exact hst i
  | cons r t ih =>
    intro stock hst i
    exact ih (invStep stock r) (invStep_nonneg stock hst r) i

/-- C2: every state of the inventory ledger reachable from the empty
store by any sequence of PUT, reserve and release requests keeps every
stock count nonnegative; and the individual operations behave as
claimed: PUT rejects negatives unchanged, reserve rejects (unchanged,
409 with the available count) when stock is short and otherwise
decrements by exactly the quantity, and release only increments. -/
theorem inventory_stock_nonneg :
    (∀ (ops : List InvReq) (item : String), 0 ≤ runInv ops item)
    ∧ (∀ (stock : Stock) (item : String) (q : Int), q < 0 →
        inventoryPutAct stock item (some (JVal.jint q))
          = (some (400, InvPutBody.negQuantity), stock))
    ∧ (∀ (stock : Stock) (item : String) (q : Int), 0 < q → stock item < q →
        inventoryAct stock item "reserve" (some (JVal.jint q))
          = (some (409, InvPostBody.insufficientStock (stock item)), stock))
    ∧ (∀ (stock : Stock) (item : String) (q : Int), 0 < q → q ≤ stock item →
        (inventoryAct stock item "reserve" (some (JVal.jint q))).2 item
          = stock item - q)
    ∧ (∀ (stock : Stock) (item : String) (q : Int), 0 < q →
        (inventoryAct stock item "release" (some (JVal.jint q))).2 item
          = stock item + q) := by
  refine ⟨?_, ?_, ?_, ?_, ?_⟩
  · intro ops item
    exact foldl_invStep_nonneg ops (fun _ => 0) (fun _ => le_refl 0) item
  · intro stock item q hq
    unfold inventoryPutAct
    simp only [Option.getD, pyInt]
    rw [if_pos hq]
  · intro stock item q hq hlt
    unfold inventoryAct
    simp only [Option.getD, pyInt]
    rw [if_neg (not_le.mpr hq), if_pos trivial, if_pos hlt]
  · intro stock item q hq hge
    unfold inventoryAct
    simp only [Option.getD, pyInt]
    rw [if_neg (not_le.mpr hq), if_pos trivial, if_neg (not_lt.mpr hge)]
    simp
  · intro stock item q hq
    unfold inventoryAct
    simp only [Option.getD, pyInt]
    rw [if_neg (not_le.mpr hq), if_neg (by decide), if_pos trivial]
    simp

/-- Witness for C2 at a concrete request sequence: set widget to 5,
reserve 3, attempt to reserve 4 (rejected), release 3; the final count
is 5 and nonnegative. -/
theorem inventory_stock_nonneg_witness :
    0 ≤ runInv
      [InvReq.put "/inventory/widget" (some (JVal.jint 5)),
       InvReq.post "/inventory/widget/reserve" (some (JVal.jint 3)),
       InvReq.post "/inventory/widget/reserve" (some (JVal.jint 4)),
       InvReq.post "/inventory/widget/release" (some (JVal.jint 3))] "widget"
    ∧ runInv
      [InvReq.put "/inventory/widget" (some (JVal.jint 5)),
       InvReq.post "/inventory/widget/reserve" (some (JVal.jint 3)),
       InvReq.post "/inventory/widget/reserve" (some (JVal.jint 4)),
       InvReq.post "/inventory/widget/release" (some (JVal.jint 3))] "widget" = 5
    ∧ inventoryPutAct (fun _ => (7 : Int)) "widget" (some (JVal.jint (-1)))
        = (some (400, InvPutBody.negQuantity), fun _ => (7 : Int)) := by
  refine ⟨inventory_stock_nonneg.1 _ "widget", by decide, ?_⟩
  exact inventory_stock_nonneg.2.1 (fun _ => (7 : Int)) "widget" (-1) (by decide)

/-- POST of a plain item with the reserve action routes to the act. -/
theorem invPost_reserve_plain (stock : Stock) (s : String) (q : Option JVal)
    (hs : plainSeg s = true) :
    InventoryHandler_do_POST stock ("/inventory/" ++ s ++ "/reserve") q
      = inventoryAct stock s "reserve" q := by
  have hpath : ("/inventory/" ++ s ++ "/reserve")
      = ("/inventory/" ++ s ++ ("/" ++ "reserve")) := rfl
  rw [hpath, invPost_plain stock s "reserve" q hs (by decide)]

/-- POST of a plain item with the release action routes to the act. -/
theorem invPost_release_plain (stock : Stock) (s : String) (q : Option JVal)
    (hs : plainSeg s = true) :
    InventoryHandler_do_POST stock ("/inventory/" ++ s ++ "/release") q
      = inventoryAct stock s "release" q := by
  have hpath : ("/inventory/" ++ s ++ "/release")
      = ("/inventory/" ++ s ++ ("/" ++ "release")) := rfl
  rw [hpath, invPost_plain stock s "release" q hs (by decide)]

/-- A reserve with positive quantity within stock decrements the item. -/
theorem inventoryAct_reserve_ok (stock : Stock) (item : String) (qty : Int)
    (hq : 0 < qty) (hge : qty ≤ stock item) :
    inventoryAct stock item "reserve" (some (JVal.jint qty))
      = (some (200, InvPostBody.reserved (stock item - qty)),
         fun s => if s = item then stock item - qty else stock s) := by
  unfold inventoryAct
  simp only [Option.getD, pyInt]
  rw [if_neg (not_le.mpr hq), if_pos trivial, if_neg (not_lt.mpr hge)]

/-- A release with positive quantity increments the item. -/
theorem inventoryAct_release_eq (stock : Stock) (item : String) (qty : Int)
    (hq : 0 < qty) :
    inventoryAct stock item "release" (some (JVal.jint qty))
      = (some (200, InvPostBody.released (stock item + qty)),
         fun s => if s = item then stock item + qty else stock s) := by
  unfold inventoryAct
  simp only [Option.getD, pyInt]
  rw [if_neg (not_le.mpr hq), if_neg (by decide), if_pos trivial]

/-- The part of the checkout saga after a successful stock check and
reservation (proof-side abbreviation of the source tail, reached with
the updated stock and the three first calls already recorded). -/
def checkoutTail (env : Env) (st2 : Stock) (itemS : String) (qty : Int) (amt : Rat)
    (amountV methodV : JVal) : COutcome :=
  let p : Nat × RBody :=
    match env.payResp with
    | some (c, b) => (c, RBody.pay b)
    | none => (503, RBody.unreach)
  if p.1 ≠ 200 then
    let st4 : Stock :=
      if env.invReleaseUp then
        (InventoryHandler_do_POST st2 ("/inventory/" ++ itemS ++ "/release")
          (some (JVal.jint qty))).2
      else st2
    ⟨some (402, CheckoutBody.errPaymentFailed p.2), st4,
     [Call.getStock itemS, Call.reserve itemS qty, Call.charge methodV amt,
      Call.release itemS qty]⟩
  else
    ⟨some (200, CheckoutBody.success
        ("Processed " ++ amount_str amountV ++ " via " ++ pretty_method methodV ++ ".")),
     st2, [Call.getStock itemS, Call.reserve itemS qty, Call.charge methodV amt]⟩

/-- Checkout with valid inputs, a plain item, reachable inventory and
sufficient stock runs the stock check and the reservation and reaches
the charge step with the item decremented by the quantity. -/
theorem checkout_reduce_happy (env : Env) (stock : Stock)
    (ri rq ra rm : Option JVal) (qty : Int) (amt : Rat)
    (hq : pyInt (rq.getD (JVal.jint 0)) = some qty)
    (hitem : pyTruthy (ri.getD JVal.null) = true)
    (hqpos : 0 < qty)
    (hamt : pyFloat (ra.getD JVal.null) = some amt)
    (hapos : 0 < amt)
    (hplain : plainSeg (pyStr (ri.getD JVal.null)) = true)
    (hget : env.invGetUp = true)
    (hres : env.invReserveUp = true)
    (hstock : qty ≤ stock (pyStr (ri.getD JVal.null))) :
    checkout env stock ri rq ra rm
      = checkoutTail env
          (fun s => if s = pyStr (ri.getD JVal.null)
            then stock (pyStr (ri.getD JVal.null)) - qty else stock s)
          (pyStr (ri.getD JVal.null)) qty amt (ra.getD JVal.null) (rm.getD JVal.null) := by
  unfold checkout
  rw [hq]
  dsimp only
  rw [if_neg (show ¬(pyTruthy (ri.getD JVal.null) = false ∨ qty ≤ 0) by
    rw [hitem]; simp; omega)]
  rw [hamt]
  dsimp only
  rw [if_neg (not_le.mpr hapos)]
  rw [hget, hres]
  rw [if_pos (show (true = true) from rfl)]
  rw [invGet_plain stock _ hplain]
  dsimp only
  rw [if_neg (by simp : ¬((200 : Nat) ≠ 200))]
  simp only [rbodyStock]
  rw [if_neg (not_lt.mpr hstock)]
  rw [invPost_reserve_plain stock _ _ hplain,
      inventoryAct_reserve_ok stock _ qty hqpos hstock]
  simp only [if_true]
  rw [if_neg (by simp : ¬((200 : Nat) ≠ 200))]
  rfl

/-- The charge step fails: the gateway replies with a non-200 status
or is unreachable. -/
def payNotOk (env : Env) : Prop :=
  match env.payResp with
  | some (c, _) => c ≠ 200
  | none => True

/-- After the reservation, a 200 gateway reply yields the success outcome. -/
theorem checkoutTail_payOK (env : Env) (st2 : Stock) (itemS : String) (qty : Int)
    (amt : Rat) (amountV methodV : JVal) (b : PayBody)
    (hpay : env.payResp = some (200, b)) :
    checkoutTail env st2 itemS qty amt amountV methodV
      = ⟨some (200, CheckoutBody.success
            ("Processed " ++ amount_str amountV ++ " via " ++ pretty_method methodV ++ ".")),
         st2, [Call.getStock itemS, Call.reserve itemS qty, Call.charge methodV amt]⟩ := by
  unfold checkoutTail
  rw [hpay]
  dsimp only
  rw [if_neg (by simp : ¬((200 : Nat) ≠ 200))]

/-- After the reservation, a failing or unreachable gateway yields the
402 payment_failed outcome, with the compensating release attempted. -/
theorem checkoutTail_payFail (env : Env) (st2 : Stock) (itemS : String) (qty : Int)
    (amt : Rat) (amountV methodV : JVal) (hfail : payNotOk env) :
    checkoutTail env st2 itemS qty amt amountV methodV
      = ⟨some (402, CheckoutBody.errPaymentFailed (payDetail env)),
         (if env.invReleaseUp then
            (InventoryHandler_do_POST st2 ("/inventory/" ++ itemS ++ "/release")
              (some (JVal.jint qty))).2
          else st2),
         [Call.getStock itemS, Call.reserve itemS qty, Call.charge methodV amt,
          Call.release itemS qty]⟩ := by
  unfold checkoutTail payDetail
  unfold payNotOk at hfail
  cases hp : env.payResp with
  | none =>
    dsimp only
    rw [if_pos (by simp : ((503 : Nat) ≠ 200))]
  | some cb =>
    obtain ⟨c, b⟩ := cb
    rw [hp] at hfail
    dsimp only at hfail
    dsimp only
    rw [if_pos hfail]

/-- C3: for every checkout with valid inputs (item a nonempty plain
segment, quantity parsing positive, amount parsing positive),
reachable inventory, sufficient stock, and a gateway answering 200
with any body, the response is 200 with the confirmation built from
the request amount and method, the stock of the item decreases by
exactly the requested quantity, and no other item changes. -/
theorem checkout_success_decrements (env : Env) (stock : Stock)
    (ri rq ra rm : Option JVal) (qty : Int) (amt : Rat) (b : PayBody)
    (hq : pyInt (rq.getD (JVal.jint 0)) = some qty)
    (hitem : pyTruthy (ri.getD JVal.null) = true)
    (hqpos : 0 < qty)
    (hamt : pyFloat (ra.getD JVal.null) = some amt)
    (hapos : 0 < amt)
    (hplain : plainSeg (pyStr (ri.getD JVal.null)) = true)
    (hget : env.invGetUp = true)
    (hres : env.invReserveUp = true)
    (hpay : env.payResp = some (200, b))
    (hstock : qty ≤ stock (pyStr (ri.getD JVal.null))) :
    (checkout env stock ri rq ra rm).resp
        = some (200, CheckoutBody.success
            ("Processed " ++ amount_str (ra.getD JVal.null) ++ " via "
              ++ pretty_method (rm.getD JVal.null) ++ "."))
    ∧ (checkout env stock ri rq ra rm).stock (pyStr (ri.getD JVal.null))
        = stock (pyStr (ri.getD JVal.null)) - qty
    ∧ (∀ j, j ≠ pyStr (ri.getD JVal.null) →
        (checkout env stock ri rq ra rm).stock j = stock j) := by
  rw [checkout_reduce_happy env stock ri rq ra rm qty amt hq hitem hqpos hamt hapos
        hplain hget hres hstock,
      checkoutTail_payOK env _ _ qty amt _ _ b hpay]
  refine ⟨rfl, by simp, ?_⟩
  intro j hj
  simp [hj]

/-- The scenario stock: widget at 5, everything else at 0. -/
def widgetStock : Stock := fun s => if s = "widget" then 5 else 0

/-- All collaborators reachable and a gateway that accepts charges. -/
def happyEnv : Env := ⟨true, true, true, some (200, PayBody.message "gateway ok")⟩

/-- Witness for C3, the scenario of the spec: stock widget 5, checkout
of 3 widgets for amount 30 by credit_card with payment succeeding
leaves stock 2 and returns Success whose message is Processed 30 via
Credit Card. and so contains 30 and Credit Card. -/
theorem checkout_success_decrements_witness :
    (checkout happyEnv widgetStock (some (JVal.jstr "widget")) (some (JVal.jint 3))
        (some (JVal.jint 30)) (some (JVal.jstr "credit_card"))).resp
      = some (200, CheckoutBody.success "Processed 30 via Credit Card.")
    ∧ (checkout happyEnv widgetStock (some (JVal.jstr "widget")) (some (JVal.jint 3))
        (some (JVal.jint 30)) (some (JVal.jstr "credit_card"))).stock "widget" = 2
    ∧ (∃ p q, "Processed 30 via Credit Card." = p ++ "30" ++ q)
    ∧ (∃ p q, "Processed 30 via Credit Card." = p ++ "Credit Card" ++ q) := by
  have h := checkout_success_decrements happyEnv widgetStock
      (some (JVal.jstr "widget")) (some (JVal.jint 3)) (some (JVal.jint 30))
      (some (JVal.jstr "credit_card")) 3 30 (PayBody.message "gateway ok")
      rfl (by decide) (by decide) (by decide) (by decide) (by decide) rfl rfl rfl (by decide)
  refine ⟨h.1.trans (by decide), h.2.1.trans (by decide),
      ⟨"Processed ", " via Credit Card.", by decide⟩,
      ⟨"Processed 30 via ", ".", by decide⟩⟩

/-- C1: for every checkout with valid inputs, sufficient stock and
reachable inventory, if the gateway does not answer 200 then the
response is 402 payment_failed regardless of whether the compensating
release could reach the inventory service, and when the release does
reach it the item stock is restored to its value before the checkout
(reserve of qty followed by release of qty cancels out). -/
theorem checkout_payment_failed_compensates (env : Env) (stock : Stock)
    (ri rq ra rm : Option JVal) (qty : Int) (amt : Rat)
    (hq : pyInt (rq.getD (JVal.jint 0)) = some qty)
    (hitem : pyTruthy (ri.getD JVal.null) = true)
    (hqpos : 0 < qty)
    (hamt : pyFloat (ra.getD JVal.null) = some amt)
    (hapos : 0 < amt)
    (hplain : plainSeg (pyStr (ri.getD JVal.null)) = true)
    (hget : env.invGetUp = true)
    (hres : env.invReserveUp = true)
    (hfail : payNotOk env)
    (hstock : qty ≤ stock (pyStr (ri.getD JVal.null))) :
    (checkout env stock ri rq ra rm).resp
        = some (402, CheckoutBody.errPaymentFailed (payDetail env))
    ∧ (env.invReleaseUp = true →
        (checkout env stock ri rq ra rm).stock (pyStr (ri.getD JVal.null))
          = stock (pyStr (ri.getD JVal.null))) := by
  rw [checkout_reduce_happy env stock ri rq ra rm qty amt hq hitem hqpos hamt hapos
        hplain hget hres hstock,
      checkoutTail_payFail env _ _ qty amt _ _ hfail]
  refine ⟨rfl, ?_⟩
  intro hrel
  rw [hrel, if_pos (show (true = true) from rfl)]
  rw [invPost_release_plain _ _ _ hplain, inventoryAct_release_eq _ _ qty hqpos]
  dsimp only
  rw [if_pos rfl]
  rw [if_pos rfl]
  omega

/-- Inventory reachable but the gateway rejects the charge with 400. -/
def failPayEnv : Env := ⟨true, true, true, some (400, PayBody.notPositive)⟩

/-- Witness for C1: stock widget 5, failing gateway: the checkout
answers 402 payment_failed carrying the gateway body and the stock is
back at 5. -/
theorem checkout_payment_failed_compensates_witness :
    (checkout failPayEnv widgetStock (some (JVal.jstr "widget")) (some (JVal.jint 3))
        (some (JVal.jint 30)) (some (JVal.jstr "credit_card"))).resp
      = some (402, CheckoutBody.errPaymentFailed (RBody.pay PayBody.notPositive))
    ∧ (checkout failPayEnv widgetStock (some (JVal.jstr "widget")) (some (JVal.jint 3))
        (some (JVal.jint 30)) (some (JVal.jstr "credit_card"))).stock "widget" = 5 := by
  have h := checkout_payment_failed_compensates failPayEnv widgetStock
      (some (JVal.jstr "widget")) (some (JVal.jint 3)) (some (JVal.jint 30))
      (some (JVal.jstr "credit_card")) 3 30
      rfl (by decide) (by decide) (by decide) (by decide) (by decide) rfl rfl
      (show payNotOk failPayEnv from (by decide : (400 : Nat) ≠ 200)) (by decide)
  exact ⟨h.1.trans (by decide), (h.2 rfl).trans (by decide)⟩

/-- C5: for every checkout with valid inputs and reachable inventory
whose current stock at the check step is below the requested quantity,
the response is 409 insufficient_stock carrying available equal to the
current stock, the stock map is unchanged, and the only collaborator
call is the stock check: no Reserve and no Charge. -/
theorem checkout_insufficient_unchanged (env : Env) (stock : Stock)
    (ri rq ra rm : Option JVal) (qty : Int) (amt : Rat)
    (hq : pyInt (rq.getD (JVal.jint 0)) = some qty)
    (hitem : pyTruthy (ri.getD JVal.null) = true)
    (hqpos : 0 < qty)
    (hamt : pyFloat (ra.getD JVal.null) = some amt)
    (hapos : 0 < amt)
    (hplain : plainSeg (pyStr (ri.getD JVal.null)) = true)
    (hget : env.invGetUp = true)
    (hlt : stock (pyStr (ri.getD JVal.null)) < qty) :
    checkout env stock ri rq ra rm
      = ⟨some (409, CheckoutBody.errInsufficient (stock (pyStr (ri.getD JVal.null)))),
         stock, [Call.getStock (pyStr (ri.getD JVal.null))]⟩ := by
  unfold checkout
  rw [hq]
  dsimp only
  rw [if_neg (show ¬(pyTruthy (ri.getD JVal.null) = false ∨ qty ≤ 0) by
    rw [hitem]; simp; omega)]
  rw [hamt]
  dsimp only
  rw [if_neg (not_le.mpr hapos)]
  rw [hget]
  rw [if_pos (show (true = true) from rfl)]
  rw [invGet_plain stock _ hplain]
  dsimp only
  rw [if_neg (by simp : ¬((200 : Nat) ≠ 200))]
  simp only [rbodyStock]
  rw [if_pos hlt]

/-- The scenario stock: widget at 2, everything else at 0. -/
def lowStock : Stock := fun s => if s = "widget" then 2 else 0

/-- Witness for C5, the scenario of the spec: stock widget 2 and a
checkout of quantity 3 answers 409 with available 2, stock stays 2,
and only the stock check was attempted. -/
theorem checkout_insufficient_unchanged_witness :
    (checkout happyEnv lowStock (some (JVal.jstr "widget")) (some (JVal.jint 3))
        (some (JVal.jint 30)) (some (JVal.jstr "credit_card"))).resp
      = some (409, CheckoutBody.errInsufficient 2)
    ∧ (checkout happyEnv lowStock (some (JVal.jstr "widget")) (some (JVal.jint 3))
        (some (JVal.jint 30)) (some (JVal.jstr "credit_card"))).stock "widget" = 2
    ∧ (checkout happyEnv lowStock (some (JVal.jstr "widget")) (some (JVal.jint 3))
        (some (JVal.jint 30)) (some (JVal.jstr "credit_card"))).calls
      = [Call.getStock "widget"] := by
  have h := checkout_insufficient_unchanged happyEnv lowStock
      (some (JVal.jstr "widget")) (some (JVal.jint 3)) (some (JVal.jint 30))
      (some (JVal.jstr "credit_card")) 3 30
      rfl (by decide) (by decide) (by decide) (by decide) (by decide) rfl (by decide)
  refine ⟨?_, ?_, ?_⟩
  · exact (congrArg COutcome.resp h).trans (by decide)
  · exact (congrArg (fun o => COutcome.stock o "widget") h).trans (by decide)
  · exact (congrArg COutcome.calls h).trans (by decide)

/-- C6: for every checkout with valid inputs, if the inventory service
is unreachable at the stock check step the response is 503
inventory_unreachable, the stock map is unchanged, and no Reserve,
Charge or Release is attempted: the only entry of the trace is the
failed stock check itself. -/
theorem checkout_inventory_unreachable (env : Env) (stock : Stock)
    (ri rq ra rm : Option JVal) (qty : Int) (amt : Rat)
    (hq : pyInt (rq.getD (JVal.jint 0)) = some qty)
    (hitem : pyTruthy (ri.getD JVal.null) = true)
    (hqpos : 0 < qty)
    (hamt : pyFloat (ra.getD JVal.null) = some amt)
    (hapos : 0 < amt)
    (hdown : env.invGetUp = false) :
    checkout env stock ri rq ra rm
      = ⟨some (503, CheckoutBody.errInvUnreachable), stock,
         [Call.getStock (pyStr (ri.getD JVal.null))]⟩ := by
  unfold checkout
  rw [hq]
  dsimp only
  rw [if_neg (show ¬(pyTruthy (ri.getD JVal.null) = false ∨ qty ≤ 0) by
    rw [hitem]; simp; omega)]
  rw [hamt]
  dsimp only
  rw [if_neg (not_le.mpr hapos)]
  rw [hdown]
  rw [if_neg (by simp : ¬(false = true))]
  dsimp only
  rw [if_pos (by simp : ((503 : Nat) ≠ 200))]

/-- Inventory unreachable; the gateway would accept charges. -/
def downEnv : Env := ⟨false, true, true, some (200, PayBody.message "gateway ok")⟩

/-- Witness for C6: with inventory down, the checkout of 3 widgets
answers 503, stock stays 5, and only the stock check was attempted. -/
theorem checkout_inventory_unreachable_witness :
    (checkout downEnv widgetStock (some (JVal.jstr "widget")) (some (JVal.jint 3))
        (some (JVal.jint 30)) (some (JVal.jstr "credit_card"))).resp
      = some (503, CheckoutBody.errInvUnreachable)
    ∧ (checkout downEnv widgetStock (some (JVal.jstr "widget")) (some (JVal.jint 3))
        (some (JVal.jint 30)) (some (JVal.jstr "credit_card"))).stock "widget" = 5
    ∧ (checkout downEnv widgetStock (some (JVal.jstr "widget")) (some (JVal.jint 3))
        (some (JVal.jint 30)) (some (JVal.jstr "credit_card"))).calls
      = [Call.getStock "widget"] := by
  have h := checkout_inventory_unreachable downEnv widgetStock
      (some (JVal.jstr "widget")) (some (JVal.jint 3)) (some (JVal.jint 30))
      (some (JVal.jstr "credit_card")) 3 30
      rfl (by decide) (by decide) (by decide) (by decide) rfl
  refine ⟨?_, ?_, ?_⟩
  · exact (congrArg COutcome.resp h).trans (by decide)
  · exact (congrArg (fun o => COutcome.stock o "widget") h).trans (by decide)
  · exact (congrArg COutcome.calls h).trans (by decide)

/-- The response is an inventory_reserve_failed failure. -/
def isReserveFailedResp : Option (Nat × CheckoutBody) → Bool
  | some (_, CheckoutBody.errReserveFailed _) => true
  | _ => false

/-- The response shows the charge step was reached: payment failed or
the whole checkout succeeded. -/
def isChargeReached : Option (Nat × CheckoutBody) → Bool
  | some (_, CheckoutBody.errPaymentFailed _) => true
  | some (_, CheckoutBody.success _) => true
  | _ => false

/-- The response is a payment_failed failure. -/
def isPayFailedResp : Option (Nat × CheckoutBody) → Bool
  | some (_, CheckoutBody.errPaymentFailed _) => true
  | _ => false

/-- Case analysis of one checkout call over every environment, stock
and request: the trace is always a prefix of the canonical sequence
stock check, reserve, charge, release; a reserve failure stops the
trace at the reserve; the charge appears exactly when the response
shows the charge step was reached; the release appears exactly when
the response is payment_failed; and a success message is always the
locally built confirmation. Shared by the temporal and the
noninterference claims. -/
theorem checkout_master (env : Env) (stock : Stock) (ri rq ra rm : Option JVal) :
    ∃ (iS : String) (qty : Int) (m : JVal) (amt : Rat),
      ((checkout env stock ri rq ra rm).calls
          = ([Call.getStock iS, Call.reserve iS qty, Call.charge m amt,
              Call.release iS qty].take (checkout env stock ri rq ra rm).calls.length))
      ∧ (isReserveFailedResp (checkout env stock ri rq ra rm).resp = true →
          (checkout env stock ri rq ra rm).calls
            = [Call.getStock iS, Call.reserve iS qty])
      ∧ (Call.charge m amt ∈ (checkout env stock ri rq ra rm).calls
          ↔ isChargeReached (checkout env stock ri rq ra rm).resp = true)
      ∧ (Call.release iS qty ∈ (checkout env stock ri rq ra rm).calls
          ↔ isPayFailedResp (checkout env stock ri rq ra rm).resp = true)
      ∧ (∀ msg, (checkout env stock ri rq ra rm).resp
            = some (200, CheckoutBody.success msg) →
          msg = "Processed " ++ amount_str (ra.getD JVal.null) ++ " via "
            ++ pretty_method (rm.getD JVal.null) ++ ".") := by
  unfold checkout
  cases hpi : pyInt (rq.getD (JVal.jint 0)) with
  | none =>
    exact ⟨pyStr (ri.getD JVal.null), 0, rm.getD JVal.null, 0,
      by simp, by simp [isReserveFailedResp], by simp [isChargeReached],
      by simp [isPayFailedResp], by simp⟩
  | some qty =>
    dsimp only
    by_cases hval : pyTruthy (ri.getD JVal.null) = false ∨ qty ≤ 0
    · rw [if_pos hval]
      exact ⟨pyStr (ri.getD JVal.null), qty, rm.getD JVal.null, 0,
        by simp, by simp [isReserveFailedResp], by simp [isChargeReached],
        by simp [isPayFailedResp], by simp⟩
    · rw [if_neg hval]
      cases hpf : pyFloat (ra.getD JVal.null) with
      | none =>
        exact ⟨pyStr (ri.getD JVal.null), qty, rm.getD JVal.null, 0,
          by simp, by simp [isReserveFailedResp], by simp [isChargeReached],
          by simp [isPayFailedResp], by simp⟩
      | some amt =>
        dsimp only
        by_cases hle : amt ≤ 0
        · rw [if_pos hle]
          exact ⟨pyStr (ri.getD JVal.null), qty, rm.getD JVal.null, amt,
            by simp, by simp [isReserveFailedResp], by simp [isChargeReached],
            by simp [isPayFailedResp], by simp⟩
        · rw [if_neg hle]
          cases hgu : env.invGetUp with
          | false =>
            rw [if_neg (by simp : ¬(false = true))]
            dsimp only
            rw [if_pos (by simp : ((503 : Nat) ≠ 200))]
            exact ⟨pyStr (ri.getD JVal.null), qty, rm.getD JVal.null, amt,
              by simp, by simp [isReserveFailedResp], by simp [isChargeReached],
              by simp [isPayFailedResp], by simp⟩
          | true =>
            rw [if_pos (show (true = true) from rfl)]
            dsimp only
            by_cases hc1 :
                (InventoryHandler_do_GET stock ("/inventory/" ++ pyStr (ri.getD JVal.null))).1
                  ≠ 200
            · rw [if_pos hc1]
              exact ⟨pyStr (ri.getD JVal.null), qty, rm.getD JVal.null, amt,
                by simp, by simp [isReserveFailedResp], by simp [isChargeReached],
                by simp [isPayFailedResp], by simp⟩
            · rw [if_neg hc1]
              by_cases hc2 :
                  rbodyStock (RBody.invGet
                    (InventoryHandler_do_GET stock
                      ("/inventory/" ++ pyStr (ri.getD JVal.null))).2) < qty
              · rw [if_pos hc2]
                exact ⟨pyStr (ri.getD JVal.null), qty, rm.getD JVal.null, amt,
                  by simp, by simp [isReserveFailedResp], by simp [isChargeReached],
                  by simp [isPayFailedResp], by simp⟩
              · rw [if_neg hc2]
                cases hru : env.invReserveUp with
                | false =>
                  rw [if_neg (by simp : ¬(false = true))]
                  dsimp only
                  rw [if_pos (by simp : ((503 : Nat) ≠ 200))]
                  exact ⟨pyStr (ri.getD JVal.null), qty, rm.getD JVal.null, amt,
                    by simp, by simp [isReserveFailedResp], by simp [isChargeReached],
                    by simp [isPayFailedResp], by simp⟩
                | true =>
                  rw [if_pos (show (true = true) from rfl)]
                  cases hpost : InventoryHandler_do_POST stock
                      ("/inventory/" ++ pyStr (ri.getD JVal.null) ++ "/reserve")
                      (some (JVal.jint qty)) with
                  | mk ro st2 =>
                    cases ro with
                    | none =>
                      dsimp only
                      rw [if_pos (by simp : ((503 : Nat) ≠ 200))]
                      exact ⟨pyStr (ri.getD JVal.null), qty, rm.getD JVal.null, amt,
                        by simp, by simp [isReserveFailedResp], by simp [isChargeReached],
                        by simp [isPayFailedResp], by simp⟩
                    | some cb =>
                      obtain ⟨c, b⟩ := cb
                      dsimp only
                      by_cases hc3 : c ≠ 200
                      · rw [if_pos hc3]
                        exact ⟨pyStr (ri.getD JVal.null), qty, rm.getD JVal.null, amt,
                          by simp, by simp [isReserveFailedResp], by simp [isChargeReached],
                          by simp [isPayFailedResp], by simp⟩
                      · rw [if_neg hc3]
                        cases hpay : env.payResp with
                        | none =>
                          dsimp only
                          rw [if_pos (by simp : ((503 : Nat) ≠ 200))]
                          exact ⟨pyStr (ri.getD JVal.null), qty, rm.getD JVal.null, amt,
                            by simp, by simp [isReserveFailedResp],
                            by simp [isChargeReached], by simp [isPayFailedResp], by simp⟩
                        | some pcb =>
                          obtain ⟨pc, pb⟩ := pcb
                          dsimp only
                          by_cases hc4 : pc ≠ 200
                          · rw [if_pos hc4]
                            exact ⟨pyStr (ri.getD JVal.null), qty, rm.getD JVal.null, amt,
                              by simp, by simp [isReserveFailedResp],
                              by simp [isChargeReached], by simp [isPayFailedResp], by simp⟩
                          · rw [if_neg hc4]
                            refine ⟨pyStr (ri.getD JVal.null), qty, rm.getD JVal.null, amt,
                              by simp, by simp [isReserveFailedResp],
                              by simp [isChargeReached], by simp [isPayFailedResp], ?_⟩
                            intro msg h
                            simp only [COutcome.resp, Option.some.injEq, Prod.mk.injEq,
                              CheckoutBody.success.injEq] at h
                            exact h.2.symm

/-- C8: within one checkout call the collaborator calls occur strictly
in the order GetStock, Reserve, Charge, Release (the trace is a prefix
of that sequence, never reordered), Charge is never attempted when the
reserve failed (the trace then ends at the Reserve), and Release
appears exactly when the outcome is payment_failed, that is only
after a successful Reserve followed by a failed Charge. -/
theorem checkout_strict_call_order (env : Env) (stock : Stock) (ri rq ra rm : Option JVal) :
    ∃ (iS : String) (qty : Int) (m : JVal) (amt : Rat),
      ((checkout env stock ri rq ra rm).calls
          = ([Call.getStock iS, Call.reserve iS qty, Call.charge m amt,
              Call.release iS qty].take (checkout env stock ri rq ra rm).calls.length))
      ∧ (isReserveFailedResp (checkout env stock ri rq ra rm).resp = true →
          (checkout env stock ri rq ra rm).calls
            = [Call.getStock iS, Call.reserve iS qty])
      ∧ (Call.charge m amt ∈ (checkout env stock ri rq ra rm).calls
          ↔ isChargeReached (checkout env stock ri rq ra rm).resp = true)
      ∧ (Call.release iS qty ∈ (checkout env stock ri rq ra rm).calls
          ↔ isPayFailedResp (checkout env stock ri rq ra rm).resp = true) := by
  obtain ⟨iS, qty, m, amt, h1, h2, h3, h4, _⟩ := checkout_master env stock ri rq ra rm
  exact ⟨iS, qty, m, amt, h1, h2, h3, h4⟩

/-- Witness for C8 at a concrete failing-payment checkout, where the
full trace including the compensating release occurs. -/
theorem checkout_strict_call_order_witness :
    ∃ (iS : String) (qty : Int) (m : JVal) (amt : Rat),
      ((checkout failPayEnv widgetStock (some (JVal.jstr "widget")) (some (JVal.jint 3))
          (some (JVal.jint 30)) (some (JVal.jstr "credit_card"))).calls
          = ([Call.getStock iS, Call.reserve iS qty, Call.charge m amt,
              Call.release iS qty].take
            (checkout failPayEnv widgetStock (some (JVal.jstr "widget")) (some (JVal.jint 3))
              (some (JVal.jint 30)) (some (JVal.jstr "credit_card"))).calls.length))
      ∧ (isReserveFailedResp (checkout failPayEnv widgetStock (some (JVal.jstr "widget"))
            (some (JVal.jint 3)) (some (JVal.jint 30))
            (some (JVal.jstr "credit_card"))).resp = true →
          (checkout failPayEnv widgetStock (some (JVal.jstr "widget")) (some (JVal.jint 3))
            (some (JVal.jint 30)) (some (JVal.jstr "credit_card"))).calls
            = [Call.getStock iS, Call.reserve iS qty])
      ∧ (Call.charge m amt ∈ (checkout failPayEnv widgetStock (some (JVal.jstr "widget"))
            (some (JVal.jint 3)) (some (JVal.jint 30))
            (some (JVal.jstr "credit_card"))).calls
          ↔ isChargeReached (checkout failPayEnv widgetStock (some (JVal.jstr "widget"))
              (some (JVal.jint 3)) (some (JVal.jint 30))
              (some (JVal.jstr "credit_card"))).resp = true)
      ∧ (Call.release iS qty ∈ (checkout failPayEnv widgetStock (some (JVal.jstr "widget"))
            (some (JVal.jint 3)) (some (JVal.jint 30))
            (some (JVal.jstr "credit_card"))).calls
          ↔ isPayFailedResp (checkout failPayEnv widgetStock (some (JVal.jstr "widget"))
              (some (JVal.jint 3)) (some (JVal.jint 30))
              (some (JVal.jstr "credit_card"))).resp = true) :=
  checkout_strict_call_order failPayEnv widgetStock (some (JVal.jstr "widget"))
    (some (JVal.jint 3)) (some (JVal.jint 30)) (some (JVal.jstr "credit_card"))

/-- C10: the whole checkout outcome (response, stock and trace) is the
same for any two gateway 200 replies whatever their bodies, and every
success message equals the confirmation the orchestrator rebuilds
locally from the request amount and method. -/
theorem checkout_gateway_body_independent (e : Env) (stock : Stock)
    (ri rq ra rm : Option JVal) (b1 b2 : PayBody) :
    checkout ⟨e.invGetUp, e.invReserveUp, e.invReleaseUp, some (200, b1)⟩ stock ri rq ra rm
      = checkout ⟨e.invGetUp, e.invReserveUp, e.invReleaseUp, some (200, b2)⟩ stock ri rq ra rm
    ∧ (∀ msg, (checkout ⟨e.invGetUp, e.invReserveUp, e.invReleaseUp, some (200, b1)⟩
          stock ri rq ra rm).resp = some (200, CheckoutBody.success msg) →
        msg = "Processed " ++ amount_str (ra.getD JVal.null) ++ " via "
          ++ pretty_method (rm.getD JVal.null) ++ ".") := by
  constructor
  · unfold checkout
    dsimp only
    simp only [ne_eq, not_true_eq_false, Bool.false_eq_true, if_false]
  · obtain ⟨_, _, _, _, _, _, _, _, h5⟩ :=
      checkout_master ⟨e.invGetUp, e.invReserveUp, e.invReleaseUp, some (200, b1)⟩
        stock ri rq ra rm
    exact h5

/-- Witness for C10: two gateways answering 200 with different bodies
produce identical checkout outcomes, and the message is the locally
built Processed 30 via Credit Card. -/
theorem checkout_gateway_body_independent_witness :
    checkout ⟨true, true, true, some (200, PayBody.message "gateway says A")⟩ widgetStock
        (some (JVal.jstr "widget")) (some (JVal.jint 3)) (some (JVal.jint 30))
        (some (JVal.jstr "credit_card"))
      = checkout ⟨true, true, true, some (200, PayBody.message "gateway says B")⟩ widgetStock
        (some (JVal.jstr "widget")) (some (JVal.jint 3)) (some (JVal.jint 30))
        (some (JVal.jstr "credit_card"))
    ∧ (checkout ⟨true, true, true, some (200, PayBody.message "gateway says A")⟩ widgetStock
        (some (JVal.jstr "widget")) (some (JVal.jint 3)) (some (JVal.jint 30))
        (some (JVal.jstr "credit_card"))).resp
      = some (200, CheckoutBody.success "Processed 30 via Credit Card.") := by
  have h := checkout_gateway_body_independent ⟨true, true, true, none⟩ widgetStock
    (some (JVal.jstr "widget")) (some (JVal.jint 3)) (some (JVal.jint 30))
    (some (JVal.jstr "credit_card")) (PayBody.message "gateway says A")
    (PayBody.message "gateway says B")
  exact ⟨h.1, by decide⟩

/-- C4 as amended: for every checkout request whose quantity field
parses under int() (absent defaults to 0), if the item is empty or
missing or otherwise falsy, or the parsed quantity is not positive, or
the amount does not parse as a number, or parses non-positive, then
the response is 400 with one of the three invalid-request bodies, the
stock map is untouched, and zero collaborator calls are made. -/
theorem checkout_invalid_request (env : Env) (stock : Stock)
    (ri rq ra rm : Option JVal) (qty : Int)
    (hq : pyInt (rq.getD (JVal.jint 0)) = some qty)
    (hbad : pyTruthy (ri.getD JVal.null) = false ∨ qty ≤ 0
      ∨ pyFloat (ra.getD JVal.null) = none
      ∨ ∃ amt, pyFloat (ra.getD JVal.null) = some amt ∧ amt ≤ 0) :
    (∃ b, (checkout env stock ri rq ra rm).resp = some (400, b)
       ∧ (b = CheckoutBody.errItemQty ∨ b = CheckoutBody.errAmountNumeric
           ∨ b = CheckoutBody.errAmountPositive))
    ∧ (checkout env stock ri rq ra rm).stock = stock
    ∧ (checkout env stock ri rq ra rm).calls = [] := by
  unfold checkout
  rw [hq]
  dsimp only
  by_cases h1 : pyTruthy (ri.getD JVal.null) = false ∨ qty ≤ 0
  · rw [if_pos h1]
    exact ⟨⟨CheckoutBody.errItemQty, rfl, Or.inl rfl⟩, rfl, rfl⟩
  · rw [if_neg h1]
    rcases hbad with hb | hb | hb | hb
    · exact absurd (Or.inl hb) h1
    · exact absurd (Or.inr hb) h1
    · rw [hb]
      exact ⟨⟨CheckoutBody.errAmountNumeric, rfl, Or.inr (Or.inl rfl)⟩, rfl, rfl⟩
    · obtain ⟨amt, ha, hle⟩ := hb
      rw [ha]
      dsimp only
      rw [if_pos hle]
      exact ⟨⟨CheckoutBody.errAmountPositive, rfl, Or.inr (Or.inr rfl)⟩, rfl, rfl⟩

/-- Counterexample to C4 as stated: the quantity string abc does not
parse as a positive integer, yet the checkout does not return HTTP
400: int() raises before validation, the handler sends no response at
all (resp is none). No collaborator call is made and no state changes,
but the claimed Failure invalid_request response never happens. -/
theorem checkout_quantity_crash_counterexample :
    (checkout happyEnv widgetStock (some (JVal.jstr "widget")) (some (JVal.jstr "abc"))
        (some (JVal.jint 30)) (some (JVal.jstr "credit_card"))).resp = none
    ∧ (checkout happyEnv widgetStock (some (JVal.jstr "widget")) (some (JVal.jstr "abc"))
        (some (JVal.jint 30)) (some (JVal.jstr "credit_card"))).calls = []
    ∧ (checkout happyEnv widgetStock (some (JVal.jstr "widget")) (some (JVal.jstr "abc"))
        (some (JVal.jint 30)) (some (JVal.jstr "credit_card"))).stock "widget" = 5 := by
  decide

/-- Witness for the amended C4: a request with no fields (quantity
defaults to 0) gets the 400 item-and-quantity body with no calls, and
a non-numeric amount string gets the 400 numeric-amount body with the
stock untouched. -/
theorem checkout_invalid_request_witness :
    (checkout happyEnv widgetStock none none none none).resp
        = some (400, CheckoutBody.errItemQty)
    ∧ (checkout happyEnv widgetStock none none none none).calls = []
    ∧ (checkout happyEnv widgetStock (some (JVal.jstr "widget")) (some (JVal.jint 3))
        (some (JVal.jstr "not a number")) none).resp
        = some (400, CheckoutBody.errAmountNumeric)
    ∧ (checkout happyEnv widgetStock (some (JVal.jstr "widget")) (some (JVal.jint 3))
        (some (JVal.jstr "not a number")) none).stock "widget" = 5 := by
  have h1 := checkout_invalid_request happyEnv widgetStock none none none none 0
    rfl (Or.inr (Or.inl (by decide)))
  have h2 := checkout_invalid_request happyEnv widgetStock (some (JVal.jstr "widget"))
    (some (JVal.jint 3)) (some (JVal.jstr "not a number")) none 3
    rfl (Or.inr (Or.inr (Or.inl (by decide))))
  refine ⟨by decide, h1.2.2, by decide,
    (congrArg (fun f => f "widget") h2.2.1).trans (by decide)⟩
